import Mathlib

/-!
Shallow embedding of the Sentiscope tone/clarity core
(src/services/tone_service.py and src/services/clarity_service.py).

Python strings are modelled as Lean `String` (a list of characters);
Python floats are modelled as `ℚ`; Python `None` becomes `Option`.
The statistical scorer (a joblib-loaded sklearn model) and the external
`textstat.flesch_reading_ease` function are opaque dependencies of the
code: they are modelled as parameters (an `Option ModelPair` whose
`predict` may also signal an internal exception by `none`, and an oracle
`String → Option ℚ`), so theorems quantify over every possible behaviour
of those dependencies.  `\w` and `\s` of Python's `re` and the case
mapping of `str.lower` are modelled on ASCII, which covers every pattern
table in the source.
-/

namespace Sentiscope

/-- ASCII model of Python's regex `\w` class: letters, digits, underscore. -/
def isWordChar (c : Char) : Bool := c.isAlphanum || c == '_'

/-- Model of Python `str.lower()` (ASCII case mapping). -/
def pyLower (s : String) : String := String.mk (s.data.map Char.toLower)

/-- Model of Python `str.strip()`: drop leading and trailing whitespace. -/
def pyStrip (s : String) : String :=
  String.mk (((s.data.dropWhile Char.isWhitespace).reverse.dropWhile Char.isWhitespace).reverse)

/-- The guard `not text or not text.strip()` used by both analyzers:
true exactly on empty or whitespace-only input. -/
def is_blank (s : String) : Bool := s == "" || pyStrip s == ""

/-- Match a literal character sequence at the front of `cs`; return the rest. -/
def matchLit : List Char → List Char → Option (List Char)
  | [], cs => some cs
  | _ :: _, [] => none
  | p :: ps, c :: cs => if c == p then matchLit ps cs else none

/-- Model of Python's `in` operator on strings: substring containment. -/
def subAux (needle : List Char) : List Char → Bool
  | [] => (matchLit needle []).isSome
  | c :: cs => (matchLit needle (c :: cs)).isSome || subAux needle cs

/-- `py_in needle hay` models Python `needle in hay`. -/
def py_in (needle hay : String) : Bool := subAux needle.data hay.data

/-!
The regex patterns of the source all have the restricted shape
`\b P₁ \s+ P₂ \s+ … \s+ Pₙ \b`, where each `Pᵢ` is either an alternation
of literal strings (possibly containing a literal space, e.g. `have not`)
or `\w+suf` (a nonempty word-character run followed immediately by a
literal suffix, used by the passive-voice patterns `\w+ed`).  The matcher
below implements exactly that shape.
-/

/-- One `\s+`-separated component of a pattern. -/
inductive Piece where
  /-- an alternation of literal strings, e.g. `(haven't|have not|didn't|did not)` -/
  | lits : List String → Piece
  /-- matches `\w+suf`: one or more word characters ending in the literal `suf`, e.g. `\w+ed` -/
  | wordRunSuffix : String → Piece

/-- The `\b` assertion after the last piece: next char absent or not a word char. -/
def boundaryOk : List Char → Bool
  | [] => true
  | c :: _ => !isWordChar c

/-- Possible remainders after matching one piece at the front of `cs`. -/
def pieceMatches : Piece → List Char → List (List Char)
  | .lits alts, cs => alts.filterMap (fun a => matchLit a.data cs)
  | .wordRunSuffix suf, cs =>
      let run := cs.takeWhile isWordChar
      let rest := cs.dropWhile isWordChar
      if suf.data.length + 1 ≤ run.length &&
         run.drop (run.length - suf.data.length) == suf.data
      then [rest] else []

/-- Match the `\s+`-separated pieces at the front, then the closing `\b`. -/
def matchSeq : List Piece → List Char → Bool
  | [], cs => boundaryOk cs
  | [p], cs => (pieceMatches p cs).any boundaryOk
  | p :: q :: ps, cs =>
      (pieceMatches p cs).any fun rest =>
        match rest with
        | [] => false
        | c :: rest2 => c.isWhitespace && matchSeq (q :: ps) (rest2.dropWhile Char.isWhitespace)

/-- Scan every position of the text; `atB` records whether the opening `\b`
holds there (start of string, or previous char not a word char — every
pattern starts with a word character). -/
def searchFrom (pat : List Piece) : Bool → List Char → Bool
  | atB, [] => atB && matchSeq pat []
  | atB, c :: rest => (atB && matchSeq pat (c :: rest)) || searchFrom pat (!isWordChar c) rest

/-- Model of Python `re.search(pattern, s)` (as a Bool) for the restricted
pattern shape. -/
def reSearch (pat : List Piece) (s : String) : Bool := searchFrom pat true s.data

/-! ### Pattern tables (tone_service.py lines 38-67) -/

def ACCUSATORY_PATTERNS : List (List Piece) :=
  [ [.lits ["why"], .lits ["haven't", "have not", "didn't", "did not"], .lits ["you"]],
    [.lits ["this"], .lits ["is"], .lits ["unacceptable"]],
    [.lits ["you"], .lits ["should"], .lits ["have"]],
    [.lits ["why"], .lits ["wasn't"]],
    [.lits ["why"], .lits ["isn't"]] ]

def COMMANDING_PATTERNS : List (List Piece) :=
  [ [.lits ["send"], .lits ["this", "it"], .lits ["now"]],
    [.lits ["do"], .lits ["this"], .lits ["immediately"]] ]

def POLITE_MARKERS : List String :=
  ["please", "could you", "would you", "kindly", "thank you", "thanks", "appreciate", "grateful"]

def APOLOGY_MARKERS : List String :=
  ["sorry", "apologize", "apologies", "regret"]

def URGENT_WORDS : List String :=
  ["urgent", "asap", "immediately", "deadline"]

def NEGATIVE_KEYWORDS : List String :=
  ["unacceptable", "disappointed", "failure", "problem", "issue", "delay", "no response"]

/-! ### The six rule flags, each computed against the lowercased text `t` -/

def has_accusatory (t : String) : Bool := ACCUSATORY_PATTERNS.any fun p => reSearch p t
def has_commanding (t : String) : Bool := COMMANDING_PATTERNS.any fun p => reSearch p t
def has_polite (t : String) : Bool := POLITE_MARKERS.any fun p => py_in p t
def has_apology (t : String) : Bool := APOLOGY_MARKERS.any fun p => py_in p t
def has_urgent (t : String) : Bool := URGENT_WORDS.any fun p => py_in p t
def has_negative (t : String) : Bool := NEGATIVE_KEYWORDS.any fun p => py_in p t

/-- Result of `rule_based_tone` (the RuleVerdict of the spec). -/
structure RuleVerdict where
  label : String
  confidence : ℚ
  style_tags : List String
  explanation : String
deriving Repr, DecidableEq

/-- Embedding of `rule_based_tone` (tone_service.py lines 73-111). -/
def rule_based_tone (text : String) : RuleVerdict :=
  let t := pyLower text
  let pair : String × String :=
    if has_accusatory t then ("harsh", "contains accusatory language")
    else if has_negative t && !has_polite t then ("harsh", "negative wording without softening")
    else if has_commanding t && !has_polite t then ("firm", "commanding language")
    else if has_polite t || has_apology t then ("polite", "polite or apologetic phrasing")
    else ("neutral", "factual language")
  let label := pair.1
  let reason := pair.2
  let style_tags :=
    (if has_accusatory t then ["accusatory"] else []) ++
    (if has_commanding t then ["commanding"] else []) ++
    (if has_polite t then ["polite"] else []) ++
    (if has_apology t then ["apologetic"] else []) ++
    (if has_urgent t then ["urgent"] else [])
  { label := label
    confidence := 7/10
    style_tags := style_tags
    explanation := "Tone classified as " ++ label ++ " because it " ++ reason ++ "." }

/-! ### Rounding and capitalization helpers -/

/-- Python `round(x)` to an integer: round half to even (banker's rounding). -/
def pyRound (q : ℚ) : ℤ :=
  if q - ⌊q⌋ < 1/2 then ⌊q⌋
  else if 1/2 < q - ⌊q⌋ then ⌊q⌋ + 1
  else if ⌊q⌋ % 2 = 0 then ⌊q⌋ else ⌊q⌋ + 1

/-- Python `round(x, 2)`: round to two decimal places (half to even). -/
def round2 (q : ℚ) : ℚ := (pyRound (q * 100) : ℚ) / 100

/-- Python `str.capitalize()` (ASCII): first char upper, rest lower. -/
def pyCapitalize (s : String) : String :=
  match s.data with
  | [] => ""
  | c :: cs => String.mk (c.toUpper :: cs.map Char.toLower)

/-! ### Email type router (tone_service.py lines 117-124) -/

def ROUTER_KEYWORDS : List String :=
  ["support", "help", "issue", "problem", "error", "not working", "failed",
   "urgent", "asap", "delay", "no response", "complaint"]

/-- Embedding of `is_customer_support_email`. -/
def is_customer_support_email (text : String) : Bool :=
  ROUTER_KEYWORDS.any fun k => py_in k (pyLower text)

/-! ### Safe ML helpers (tone_service.py lines 130-141) -/

/-- An opaque loaded model/vectorizer pair.  `predict text = some (label, prob)`
models a successful prediction (`prob` is the maximum class probability);
`predict text = none` models an exception raised inside
vectorization/prediction (caught by `safe_ml_predict`). -/
structure ModelPair where
  predict : String → Option (String × ℚ)

/-- Embedding of `safe_ml_predict`: `none` pair (model or vectorizer failed to
load) or an internal exception yields `(none, 0.0)`; success yields the
predicted label and its probability rounded to 2 decimals. -/
def safe_ml_predict (pair : Option ModelPair) (text : String) : Option String × ℚ :=
  match pair with
  | none => (none, 0)
  | some m =>
      match m.predict text with
      | none => (none, 0)
      | some (pred, prob) => (some pred, round2 prob)

/-- The assumption of the spec's invariant section: whenever a model is
present, every class probability it reports lies in [0,1]. -/
def prob_bounded (pair : Option ModelPair) : Prop :=
  ∀ m, pair = some m → ∀ t l q, m.predict t = some (l, q) → 0 ≤ q ∧ q ≤ 1

/-! ### Final analysis pipeline (tone_service.py lines 147-217) -/

/-- The recommended-tone hint record. -/
structure RecommendedTone where
  name : String
  emoji : String
  note : String
deriving Repr, DecidableEq

/-- The result of `analyze_tone`.  The Python dict of the empty-input branch
carries no `model_used` key at all; that absent key is modelled by
`model_used = none`. -/
structure ToneVerdict where
  label : String
  confidence : ℚ
  style_tags : List String
  explanation : String
  needs_rewrite : Bool
  recommended_tone : RecommendedTone
  model_used : Option String
deriving Repr, DecidableEq

/-- The decision logic of tone_service.py lines 182-190:
`final_label = ml_label or rule_label` (Python `or`, so an absent or
empty-string ml label falls back to the rule label), then the harsh
override, the polite-over-neutral override, and the firm→neutral collapse. -/
def decide_final_label (ml_label : Option String) (rule_label : String) : String :=
  let f0 := match ml_label with
            | none => rule_label
            | some l => if l = "" then rule_label else l
  let f1 := if rule_label = "harsh" then "harsh"
            else if rule_label = "polite" ∧ f0 = "neutral" then "polite"
            else f0
  if f1 = "firm" then "neutral" else f1

/-- Embedding of `analyze_tone` (tone_service.py lines 147-217), parametrised
by the two module-level model/vectorizer pairs loaded at startup. -/
def analyze_tone (business_model complaint_model : Option ModelPair)
    (text : String) : ToneVerdict :=
  if is_blank text then
    { label := "neutral"
      confidence := 0
      style_tags := []
      explanation := "No text provided."
      needs_rewrite := false
      recommended_tone := ⟨"Neutral", "😐", "Add content to analyze."⟩
      model_used := none }
  else
    let rule := rule_based_tone text
    let rule_label := rule.label
    let is_complaint := is_customer_support_email text
    let mlp := if is_complaint then safe_ml_predict complaint_model text
               else safe_ml_predict business_model text
    let model_used := if is_complaint then "customer_support" else "business_email"
    let ml_conf := mlp.2
    let final_label := decide_final_label mlp.1 rule_label
    let confidence := max ml_conf rule.confidence
    let needs_rewrite := final_label == "harsh"
    let recommended : RecommendedTone :=
      if needs_rewrite then
        ⟨"Professional & Polite", "😊🙏", "Rewrite to remove blame and sound respectful."⟩
      else
        ⟨pyCapitalize final_label, "✓", "Tone is appropriate."⟩
    { label := final_label
      confidence := round2 confidence
      style_tags := rule.style_tags
      explanation := rule.explanation
      needs_rewrite := needs_rewrite
      recommended_tone := recommended
      model_used := some model_used }

/-! ### Clarity service (clarity_service.py) -/

def VAGUE_WORDS : List String :=
  ["things", "stuff", "something", "somehow", "various",
   "etc", "maybe", "kind of", "sort of", "a bit"]

def CALL_TO_ACTION_VERBS : List String :=
  ["please", "request", "need", "require", "could you",
   "send", "provide", "update", "confirm", "fix"]

def PASSIVE_PATTERNS : List (List Piece) :=
  [ [.lits ["was"], .wordRunSuffix "ed"],
    [.lits ["were"], .wordRunSuffix "ed"],
    [.lits ["is"], .wordRunSuffix "ed"],
    [.lits ["has"], .lits ["been"], .wordRunSuffix "ed"] ]

/-- Split on `.`/`!`/`?` delimiters, keeping empty fragments (Python
`re.split(r'[.!?]', text)`). -/
def sentSplitAux : List Char → List Char → List (List Char)
  | acc, [] => [acc.reverse]
  | acc, c :: cs =>
      if c == '.' || c == '!' || c == '?' then acc.reverse :: sentSplitAux [] cs
      else sentSplitAux (c :: acc) cs

/-- Embedding of `split_sentences`: split on sentence delimiters, strip each
fragment, keep the non-empty ones. -/
def split_sentences (text : String) : List String :=
  ((sentSplitAux [] text.data).map (fun cs => pyStrip (String.mk cs))).filter
    (fun s => s ≠ "")

/-- Split on whitespace runs, dropping empty fields (Python `str.split()`). -/
def wsSplitAux : List Char → List Char → List (List Char)
  | acc, [] => if acc.isEmpty then [] else [acc.reverse]
  | acc, c :: cs =>
      if c.isWhitespace then
        if acc.isEmpty then wsSplitAux [] cs else acc.reverse :: wsSplitAux [] cs
      else wsSplitAux (c :: acc) cs

/-- Model of Python `str.split()` (no argument: split on whitespace runs). -/
def pySplitWs (s : String) : List String := (wsSplitAux [] s.data).map String.mk

/-- Python `int(x)` on a float: truncation toward zero. -/
def pyInt (q : ℚ) : ℤ := if q < 0 then ⌈q⌉ else ⌊q⌋

/-- The result of `analyze_clarity` (the ClarityVerdict of the spec). -/
structure ClarityVerdict where
  clarity_score : ℤ
  issues : List String
  summary : String
deriving Repr, DecidableEq

/-- The condition of clarity_service.py line 117 (rule 5, short abrupt
message): fewer than 10 words and none of please/could/would present. -/
def abrupt_short (text : String) : Bool :=
  (pySplitWs text).length < 10 &&
  !(["please", "could", "would"].any fun v => py_in v (pyLower text))

/-- Embedding of `analyze_clarity` (clarity_service.py lines 39-130),
parametrised by the external `textstat.flesch_reading_ease` oracle
(`none` models the function raising, caught by the bare `except`). -/
def analyze_clarity (flesch_reading_ease : String → Option ℚ)
    (text : String) : ClarityVerdict :=
  if is_blank text then
    { clarity_score := 0
      issues := ["No text provided"]
      summary := "No content to analyze." }
  else
    let sentences := split_sentences text
    let word_count : ℤ := (pySplitWs text).length
    let t := pyLower text
    let long_sentences := sentences.filter fun s => 25 < (pySplitWs s).length
    let readability : ℚ := (flesch_reading_ease text).getD 50
    let vague_hits := VAGUE_WORDS.filter fun w => py_in w t
    let passive_hits := PASSIVE_PATTERNS.any fun p => reSearch p t
    let cta := CALL_TO_ACTION_VERBS.any fun v => py_in v t
    let vague_recheck :=
      2 ≤ vague_hits.length ∨ "things" ∈ vague_hits ∨ "stuff" ∈ vague_hits
    let issues : List String :=
      (if long_sentences ≠ [] then ["Some sentences are too long and hard to follow."] else []) ++
      (if 180 < word_count then ["Message is too long. Consider shortening it."] else []) ++
      (if readability < 50 then ["Text is difficult to read. Use simpler sentences."] else []) ++
      (if vague_hits ≠ [] then ["Vague wording detected. Be more specific."] else []) ++
      (if passive_hits then ["Passive voice reduces clarity. Use active voice."] else []) ++
      (if !cta then ["No clear action or request stated."] else []) ++
      (if passive_hits then
        ["Passive voice detected. Consider active voice where possible (optional)."] else []) ++
      (if 250 < word_count then
        ["Message is quite long. Consider breaking into bullet points."] else []) ++
      (if vague_recheck then ["Vague wording detected. Be more specific."] else []) ++
      (if abrupt_short text then ["Message too short and abrupt."] else [])
    let score1 : ℚ := 100
      - 5 * long_sentences.length
      - (max 0 ((word_count - 150).fdiv 20) * 5 : ℤ)
      - max 0 (50 - readability)
      - 5 * vague_hits.length
    let score2 := if passive_hits then score1 - 5 else score1
    let score3 := if 250 < word_count then
        score2 - (max 0 ((word_count - 200).fdiv 30) * 5 : ℤ) else score2
    let score4 := if 65 ≤ readability then min 100 (score3 + 5) else score3
    let score5 := if vague_recheck then score4 - 4 * vague_hits.length else score4
    let score6 := if abrupt_short text then score5 - 25 else score5
    let final_score : ℤ := max 0 (min 100 (pyInt score6))
    { clarity_score := final_score
      issues := issues
      summary := if 75 ≤ final_score then "Clear and easy to understand."
                 else "Message could be clearer." }

/-! ## Helper lemmas -/

/-- Membership in an if-then-else with empty alternative. -/
lemma mem_ite_nil {α : Type*} (a : α) (c : Prop) [Decidable c] (l : List α) :
    (a ∈ if c then l else []) ↔ c ∧ a ∈ l := by
  split <;> simp_all

/-- The label selected by `rule_based_tone` is exactly the first-match
priority chain over the six flags. -/
lemma rule_based_tone_label (text : String) :
    (rule_based_tone text).label =
      (if has_accusatory (pyLower text) then "harsh"
       else if has_negative (pyLower text) && !has_polite (pyLower text) then "harsh"
       else if has_commanding (pyLower text) && !has_polite (pyLower text) then "firm"
       else if has_polite (pyLower text) || has_apology (pyLower text) then "polite"
       else "neutral") := by
  unfold rule_based_tone
  dsimp only
  split
  · rfl
  split
  · rfl
  split
  · rfl
  split
  · rfl
  · rfl

/-- The rule engine's confidence is the fixed constant 0.7. -/
lemma rule_based_tone_confidence (text : String) :
    (rule_based_tone text).confidence = 7/10 := rfl

/-- The rule label is always one of the four internal categories. -/
lemma rule_based_tone_label_mem (text : String) :
    (rule_based_tone text).label = "harsh" ∨ (rule_based_tone text).label = "firm" ∨
    (rule_based_tone text).label = "polite" ∨ (rule_based_tone text).label = "neutral" := by
  rw [rule_based_tone_label]
  split
  · exact Or.inl rfl
  split
  · exact Or.inl rfl
  split
  · exact Or.inr (Or.inl rfl)
  split
  · exact Or.inr (Or.inr (Or.inl rfl))
  · exact Or.inr (Or.inr (Or.inr rfl))

/-- If the accusatory flag fires, the rule label is harsh. -/
lemma rule_label_of_accusatory {text : String}
    (h : has_accusatory (pyLower text) = true) :
    (rule_based_tone text).label = "harsh" := by
  rw [rule_based_tone_label, h, if_pos rfl]

/-- Unfolding of `analyze_tone` on non-blank input. -/
lemma analyze_tone_of_not_blank (bm cm : Option ModelPair) (text : String)
    (h : is_blank text = false) :
    analyze_tone bm cm text =
      { label := decide_final_label
          (if is_customer_support_email text then safe_ml_predict cm text
           else safe_ml_predict bm text).1 (rule_based_tone text).label
        confidence := round2 (max
          (if is_customer_support_email text then safe_ml_predict cm text
           else safe_ml_predict bm text).2 (rule_based_tone text).confidence)
        style_tags := (rule_based_tone text).style_tags
        explanation := (rule_based_tone text).explanation
        needs_rewrite := decide_final_label
          (if is_customer_support_email text then safe_ml_predict cm text
           else safe_ml_predict bm text).1 (rule_based_tone text).label == "harsh"
        recommended_tone :=
          if decide_final_label
              (if is_customer_support_email text then safe_ml_predict cm text
               else safe_ml_predict bm text).1 (rule_based_tone text).label == "harsh" then
            ⟨"Professional & Polite", "😊🙏", "Rewrite to remove blame and sound respectful."⟩
          else
            ⟨pyCapitalize (decide_final_label
              (if is_customer_support_email text then safe_ml_predict cm text
               else safe_ml_predict bm text).1 (rule_based_tone text).label),
             "✓", "Tone is appropriate."⟩
        model_used := some (if is_customer_support_email text then "customer_support"
                            else "business_email") } := by
  simp only [analyze_tone, h, Bool.false_eq_true, if_false]

/-- Forcing rule: a harsh rule label always wins the fusion. -/
lemma decide_final_label_harsh (ml : Option String) :
    decide_final_label ml "harsh" = "harsh" := by
  cases ml <;> simp [decide_final_label]

/-- With no model label, fusion is the rule label with firm collapsed. -/
lemma decide_final_label_none (rl : String) :
    decide_final_label none rl = if rl = "firm" then "neutral" else rl := by
  unfold decide_final_label
  by_cases h1 : rl = "harsh"
  · subst h1; simp
  · by_cases h2 : rl = "polite"
    · subst h2; simp
    · simp [h1, h2]

/-- If the model does not say harsh and the rule label is polite, the fused
label is not harsh. -/
lemma decide_final_label_ne_harsh {ml : Option String}
    (hml : ml ≠ some "harsh") :
    decide_final_label ml "polite" ≠ "harsh" := by
  unfold decide_final_label
  cases ml with
  | none => simp
  | some l =>
    have hl : l ≠ "harsh" := fun h => hml (by rw [h])
    by_cases h0 : l = ""
    · simp [h0]
    · by_cases hn : l = "neutral"
      · simp [h0, hn]
      · by_cases hf : l = "firm"
        · simp [h0, hn, hf]
        · simp [h0, hn, hf, hl]

/-- If the model label is absent or one of the four categories, and the rule
label is one of the four categories, the fused label is one of the four. -/
lemma decide_final_label_mem_four {ml : Option String} {rl : String}
    (hml : ml = none ∨ ml = some "harsh" ∨ ml = some "firm" ∨
           ml = some "polite" ∨ ml = some "neutral")
    (hrl : rl = "harsh" ∨ rl = "firm" ∨ rl = "polite" ∨ rl = "neutral") :
    decide_final_label ml rl = "harsh" ∨ decide_final_label ml rl = "firm" ∨
    decide_final_label ml rl = "polite" ∨ decide_final_label ml rl = "neutral" := by
  rcases hml with rfl | rfl | rfl | rfl | rfl <;>
    rcases hrl with rfl | rfl | rfl | rfl <;> decide

/-- Banker's rounding never goes below the floor, hence stays nonnegative. -/
lemma pyRound_nonneg {q : ℚ} (h : 0 ≤ q) : 0 ≤ pyRound q := by
  have h0 : (0 : ℤ) ≤ ⌊q⌋ := Int.floor_nonneg.mpr h
  unfold pyRound
  split_ifs <;> omega

/-- Banker's rounding never exceeds an integer upper bound of the input. -/
lemma pyRound_le {q : ℚ} {B : ℤ} (h : q ≤ B) : pyRound q ≤ B := by
  have hf : ⌊q⌋ ≤ B := by
    have h2 := Int.floor_mono h
    rwa [Int.floor_intCast] at h2
  have hfq : (⌊q⌋ : ℚ) ≤ q := Int.floor_le q
  unfold pyRound
  split_ifs with h1 h2 h3
  · exact hf
  · have hlt : (⌊q⌋ : ℚ) < (B : ℚ) := by linarith
    have : ⌊q⌋ < B := by exact_mod_cast hlt
    omega
  · exact hf
  · have hge : (1 : ℚ)/2 ≤ q - ⌊q⌋ := le_of_not_lt h1
    have hlt : (⌊q⌋ : ℚ) < (B : ℚ) := by
      have hB : q ≤ (B : ℚ) := h
      linarith
    have : ⌊q⌋ < B := by exact_mod_cast hlt
    omega

/-- Rounding to two decimals keeps a value of [0,1] inside [0,1]. -/
lemma round2_mem_unit {q : ℚ} (h0 : 0 ≤ q) (h1 : q ≤ 1) :
    0 ≤ round2 q ∧ round2 q ≤ 1 := by
  have hn : (0 : ℤ) ≤ pyRound (q * 100) := pyRound_nonneg (by linarith)
  have hu : pyRound (q * 100) ≤ (100 : ℤ) := pyRound_le (by push_cast; linarith)
  unfold round2
  constructor
  · positivity
  · rw [div_le_one (by norm_num : (0:ℚ) < 100)]
    exact_mod_cast hu

/-- The confidence reported by `safe_ml_predict` lies in [0,1] whenever the
model's class probabilities do. -/
lemma safe_ml_predict_conf_bounds {pair : Option ModelPair}
    (hp : prob_bounded pair) (t : String) :
    0 ≤ (safe_ml_predict pair t).2 ∧ (safe_ml_predict pair t).2 ≤ 1 := by
  cases pair with
  | none => simp [safe_ml_predict]
  | some m =>
    cases hpt : m.predict t with
    | none => simp [safe_ml_predict, hpt]
    | some pr =>
      obtain ⟨l, q⟩ := pr
      have hq := hp m rfl t l q hpt
      simp only [safe_ml_predict, hpt]
      exact round2_mem_unit hq.1 hq.2

/-- The clarity score is the clamp `max 0 (min 100 _)` on non-blank input,
so it always lies in [0,100]; on blank input it is 0. -/
lemma clarity_score_bounds (ro : String → Option ℚ) (text : String) :
    0 ≤ (analyze_clarity ro text).clarity_score ∧
    (analyze_clarity ro text).clarity_score ≤ 100 := by
  unfold analyze_clarity
  split
  · exact ⟨le_refl 0, by norm_num⟩
  · dsimp only
    exact ⟨le_max_left 0 _, max_le (by norm_num) (min_le_left 100 _)⟩

/-- The abrupt-short-message condition, spelled out. -/
lemma abrupt_short_iff (text : String) :
    abrupt_short text = true ↔
      ((pySplitWs text).length < 10 ∧
       ∀ v ∈ (["please", "could", "would"] : List String),
         py_in v (pyLower text) = false) := by
  simp [abrupt_short, List.any_eq_true]

/-- The abruptness issue appears in the output exactly when the
abrupt-short-message condition holds (non-blank input). -/
lemma abrupt_issue_mem (ro : String → Option ℚ) (text : String)
    (hne : is_blank text = false) :
    ("Message too short and abrupt." ∈ (analyze_clarity ro text).issues) ↔
      abrupt_short text = true := by
  simp only [analyze_clarity, hne, Bool.false_eq_true, if_false]
  by_cases ha : abrupt_short text = true
  · simp [ha]
  · simp only [Bool.not_eq_true] at ha
    simp [ha, mem_ite_nil]

/-! ## Claim theorems -/

/-- C1: for every non-empty input text in which some accusatory pattern
matches, `analyze_tone` returns final label harsh with `needs_rewrite = true`,
for every possible output of the statistical scorer (any label, any
confidence, or unavailable — i.e. for all model pairs). -/
theorem accusatory_always_harsh (bm cm : Option ModelPair) (text : String)
    (hne : is_blank text = false)
    (hacc : has_accusatory (pyLower text) = true) :
    (analyze_tone bm cm text).label = "harsh" ∧
    (analyze_tone bm cm text).needs_rewrite = true := by
  rw [analyze_tone_of_not_blank bm cm text hne]
  have hr := rule_label_of_accusatory hacc
  constructor
  · dsimp only
    rw [hr, decide_final_label_harsh]
  · dsimp only
    rw [hr, decide_final_label_harsh]
    rfl

/-- Witness for C1: the spec's own example, with a business model that
disagrees (it predicts polite with confidence 0.99). -/
theorem accusatory_always_harsh_witness :
    (analyze_tone (some ⟨fun _ => some ("polite", 99/100)⟩) none
        "Why haven't you responded?").label = "harsh" ∧
    (analyze_tone (some ⟨fun _ => some ("polite", 99/100)⟩) none
        "Why haven't you responded?").needs_rewrite = true :=
  accusatory_always_harsh (some ⟨fun _ => some ("polite", 99/100)⟩) none
    "Why haven't you responded?" (by decide) (by decide)

/-- C5: `rule_based_tone` selects its label by the exact first-match priority
accusatory → harsh; negative ∧ ¬polite → harsh; commanding ∧ ¬polite → firm;
polite ∨ apology → polite; else neutral — flags computed against the
lowercased text — and its confidence is the constant 0.7. -/
theorem rule_priority_order (text : String) :
    (rule_based_tone text).label =
      (if has_accusatory (pyLower text) then "harsh"
       else if has_negative (pyLower text) && !has_polite (pyLower text) then "harsh"
       else if has_commanding (pyLower text) && !has_polite (pyLower text) then "firm"
       else if has_polite (pyLower text) || has_apology (pyLower text) then "polite"
       else "neutral") ∧
    (rule_based_tone text).confidence = 7/10 :=
  ⟨rule_based_tone_label text, rule_based_tone_confidence text⟩

/-- C6: empty or whitespace-only input short-circuits both analyzers to the
fixed degenerate results: tone neutral / confidence 0 / no rewrite, and
clarity score 0 with issues exactly ["No text provided"]. -/
theorem blank_input_short_circuit (bm cm : Option ModelPair)
    (ro : String → Option ℚ) (text : String) (h : is_blank text = true) :
    (analyze_tone bm cm text).label = "neutral" ∧
    (analyze_tone bm cm text).confidence = 0 ∧
    (analyze_tone bm cm text).needs_rewrite = false ∧
    (analyze_clarity ro text).clarity_score = 0 ∧
    (analyze_clarity ro text).issues = ["No text provided"] := by
  simp [analyze_tone, analyze_clarity, h]

/-- Witness for C6 at the whitespace-only input made of three spaces. -/
theorem blank_input_short_circuit_witness :
    (analyze_tone none none "   ").label = "neutral" ∧
    (analyze_tone none none "   ").confidence = 0 ∧
    (analyze_tone none none "   ").needs_rewrite = false ∧
    (analyze_clarity (fun _ => some 50) "   ").clarity_score = 0 ∧
    (analyze_clarity (fun _ => some 50) "   ").issues = ["No text provided"] :=
  blank_input_short_circuit none none (fun _ => some 50) "   " (by decide)

/-- C9: blank input yields a verdict with no `model_used` key (modelled as
`none`); non-blank input always carries `model_used` equal to either
business_email or customer_support. -/
theorem model_used_field (bm cm : Option ModelPair) (text : String) :
    (is_blank text = true → (analyze_tone bm cm text).model_used = none) ∧
    (is_blank text = false →
      (analyze_tone bm cm text).model_used = some "business_email" ∨
      (analyze_tone bm cm text).model_used = some "customer_support") := by
  constructor
  · intro h
    simp [analyze_tone, h]
  · intro h
    rw [analyze_tone_of_not_blank bm cm text h]
    dsimp only
    by_cases hc : is_customer_support_email text = true
    · exact Or.inr (by simp [hc])
    · exact Or.inl (by simp [hc])

/-- Witness for C9: blank and non-blank concrete inputs. -/
theorem model_used_field_witness :
    (analyze_tone none none "   ").model_used = none ∧
    ((analyze_tone none none "hello").model_used = some "business_email" ∨
     (analyze_tone none none "hello").model_used = some "customer_support") :=
  ⟨(model_used_field none none "   ").1 (by decide),
   (model_used_field none none "hello").2 (by decide)⟩

/-- C10: on non-blank input, the explanation and style_tags of the final
verdict are exactly those of `rule_based_tone`, untouched by the model. -/
theorem explanation_and_tags_from_rule (bm cm : Option ModelPair) (text : String)
    (h : is_blank text = false) :
    (analyze_tone bm cm text).explanation = (rule_based_tone text).explanation ∧
    (analyze_tone bm cm text).style_tags = (rule_based_tone text).style_tags := by
  rw [analyze_tone_of_not_blank bm cm text h]
  exact ⟨rfl, rfl⟩

/-- Witness for C10: a model that wins the label still leaves explanation and
style_tags to the rule engine. -/
theorem explanation_and_tags_from_rule_witness :
    (analyze_tone (some ⟨fun _ => some ("harsh", 9/10)⟩) none "hello").explanation =
      (rule_based_tone "hello").explanation ∧
    (analyze_tone (some ⟨fun _ => some ("harsh", 9/10)⟩) none "hello").style_tags =
      (rule_based_tone "hello").style_tags :=
  explanation_and_tags_from_rule (some ⟨fun _ => some ("harsh", 9/10)⟩) none "hello"
    (by decide)

/-- Counterexample to C2 as stated: the text "please send the update"
contains "please", matches no accusatory pattern and contains no negative
keyword, yet when the statistical scorer outputs label "harsh" the final
label is harsh — the scorer's harsh label flows through unchecked. -/
theorem please_text_model_harsh_counterexample :
    py_in "please" (pyLower "please send the update") = true ∧
    has_accusatory (pyLower "please send the update") = false ∧
    has_negative (pyLower "please send the update") = false ∧
    is_blank "please send the update" = false ∧
    (analyze_tone (some ⟨fun _ => some ("harsh", 9/10)⟩) none
        "please send the update").label = "harsh" := by
  refine ⟨by decide, by decide, by decide, by decide, by decide⟩

/-- C2 (amended): a text containing "please" with no accusatory match and no
negative keyword never yields final label harsh, provided the selected
statistical scorer does not itself return the label "harsh" (in particular,
whenever the scorer is unavailable or returns any other label). -/
theorem please_never_harsh (bm cm : Option ModelPair) (text : String)
    (hne : is_blank text = false)
    (hp : py_in "please" (pyLower text) = true)
    (hacc : has_accusatory (pyLower text) = false)
    (hneg : has_negative (pyLower text) = false)
    (hml : (if is_customer_support_email text then safe_ml_predict cm text
            else safe_ml_predict bm text).1 ≠ some "harsh") :
    (analyze_tone bm cm text).label ≠ "harsh" := by
  have hpol : has_polite (pyLower text) = true := by
    simp only [has_polite, POLITE_MARKERS, List.any_cons, hp, Bool.true_or]
  have hrl : (rule_based_tone text).label = "polite" := by
    rw [rule_based_tone_label, hacc, hneg, hpol]
    simp
  rw [analyze_tone_of_not_blank bm cm text hne]
  dsimp only
  rw [hrl]
  exact decide_final_label_ne_harsh hml

/-- Witness for the amended C2: no model loaded, polite text. -/
theorem please_never_harsh_witness :
    (analyze_tone none none "please send the update").label ≠ "harsh" :=
  please_never_harsh none none "please send the update"
    (by decide) (by decide) (by decide) (by decide) (by decide)

/-- Counterexample to C3 as stated: on "send this now" the rule engine's own
label-selection logic yields "firm", but `analyze_tone` with the scorer
unavailable yields "neutral" (the firm→neutral collapse of step 6 is not
part of `rule_based_tone`). -/
theorem rule_only_not_exact_counterexample :
    safe_ml_predict none "send this now" = (none, 0) ∧
    (rule_based_tone "send this now").label = "firm" ∧
    (analyze_tone none none "send this now").label = "neutral" := by
  refine ⟨by decide, by decide, by decide⟩

/-- C3 (amended): when the selected statistical scorer is unavailable
(`safe_ml_predict` returns `(none, 0.0)`), the final label of `analyze_tone`
equals the label selected by `rule_based_tone` after collapsing firm to
neutral (it equals the rule label exactly whenever that label is not firm). -/
theorem rule_only_fusion (bm cm : Option ModelPair) (text : String)
    (hne : is_blank text = false)
    (hml : (if is_customer_support_email text then safe_ml_predict cm text
            else safe_ml_predict bm text) = (none, 0)) :
    (analyze_tone bm cm text).label =
      (if (rule_based_tone text).label = "firm" then "neutral"
       else (rule_based_tone text).label) := by
  rw [analyze_tone_of_not_blank bm cm text hne]
  dsimp only
  rw [hml]
  exact decide_final_label_none (rule_based_tone text).label

/-- Witness for the amended C3 at the counterexample's own input. -/
theorem rule_only_fusion_witness :
    (analyze_tone none none "send this now").label =
      (if (rule_based_tone "send this now").label = "firm" then "neutral"
       else (rule_based_tone "send this now").label) :=
  rule_only_fusion none none "send this now" (by decide) (by decide)

/-- Counterexample to C7 as stated: when the statistical scorer returns an
arbitrary string such as "excited", the final label is that string — not one
of the four enum values. -/
theorem label_enum_counterexample :
    is_blank "hello" = false ∧
    (analyze_tone (some ⟨fun _ => some ("excited", 9/10)⟩) none "hello").label
      = "excited" ∧
    (analyze_tone (some ⟨fun _ => some ("excited", 9/10)⟩) none "hello").label
      ≠ "harsh" ∧
    (analyze_tone (some ⟨fun _ => some ("excited", 9/10)⟩) none "hello").label
      ≠ "firm" ∧
    (analyze_tone (some ⟨fun _ => some ("excited", 9/10)⟩) none "hello").label
      ≠ "polite" ∧
    (analyze_tone (some ⟨fun _ => some ("excited", 9/10)⟩) none "hello").label
      ≠ "neutral" := by
  refine ⟨by decide, by decide, by decide, by decide, by decide, by decide⟩

/-- C7 (amended): for non-blank input, if the selected scorer's label is
absent or itself one of the four enum values, the final label is one of the
four enum values harsh, firm, polite, neutral. -/
theorem label_in_enum (bm cm : Option ModelPair) (text : String)
    (hne : is_blank text = false)
    (hml : (if is_customer_support_email text then safe_ml_predict cm text
            else safe_ml_predict bm text).1 = none ∨
           (if is_customer_support_email text then safe_ml_predict cm text
            else safe_ml_predict bm text).1 = some "harsh" ∨
           (if is_customer_support_email text then safe_ml_predict cm text
            else safe_ml_predict bm text).1 = some "firm" ∨
           (if is_customer_support_email text then safe_ml_predict cm text
            else safe_ml_predict bm text).1 = some "polite" ∨
           (if is_customer_support_email text then safe_ml_predict cm text
            else safe_ml_predict bm text).1 = some "neutral") :
    (analyze_tone bm cm text).label = "harsh" ∨
    (analyze_tone bm cm text).label = "firm" ∨
    (analyze_tone bm cm text).label = "polite" ∨
    (analyze_tone bm cm text).label = "neutral" := by
  rw [analyze_tone_of_not_blank bm cm text hne]
  dsimp only
  exact decide_final_label_mem_four hml (rule_based_tone_label_mem text)

/-- Witness for the amended C7: scorer unavailable on a plain text. -/
theorem label_in_enum_witness :
    (analyze_tone none none "hello").label = "harsh" ∨
    (analyze_tone none none "hello").label = "firm" ∨
    (analyze_tone none none "hello").label = "polite" ∨
    (analyze_tone none none "hello").label = "neutral" :=
  label_in_enum none none "hello" (by decide) (Or.inl (by decide))

/-- C4: for every input text, every readability oracle, and every pair of
models whose class probabilities lie in [0,1], the tone confidence lies in
[0,1] and the clarity score lies in [0,100]. -/
theorem confidence_and_clarity_bounded (bm cm : Option ModelPair)
    (ro : String → Option ℚ) (text : String)
    (hbm : prob_bounded bm) (hcm : prob_bounded cm) :
    (0 ≤ (analyze_tone bm cm text).confidence ∧
     (analyze_tone bm cm text).confidence ≤ 1) ∧
    (0 ≤ (analyze_clarity ro text).clarity_score ∧
     (analyze_clarity ro text).clarity_score ≤ 100) := by
  refine ⟨?_, clarity_score_bounds ro text⟩
  by_cases h : is_blank text = true
  · simp [analyze_tone, h]
  · rw [Bool.not_eq_true] at h
    rw [analyze_tone_of_not_blank bm cm text h]
    dsimp only
    have hsel : 0 ≤ (if is_customer_support_email text then safe_ml_predict cm text
                     else safe_ml_predict bm text).2 ∧
                (if is_customer_support_email text then safe_ml_predict cm text
                 else safe_ml_predict bm text).2 ≤ 1 := by
      split
      · exact safe_ml_predict_conf_bounds hcm text
      · exact safe_ml_predict_conf_bounds hbm text
    rw [rule_based_tone_confidence]
    exact round2_mem_unit
      (le_trans (by norm_num) (le_max_right _ (7/10)))
      (max_le hsel.2 (by norm_num))

/-- Witness for C4: no models, a constant readability oracle. -/
theorem confidence_and_clarity_bounded_witness :
    (0 ≤ (analyze_tone none none "hello").confidence ∧
     (analyze_tone none none "hello").confidence ≤ 1) ∧
    (0 ≤ (analyze_clarity (fun _ => some 50) "hello").clarity_score ∧
     (analyze_clarity (fun _ => some 50) "hello").clarity_score ≤ 100) :=
  confidence_and_clarity_bounded none none (fun _ => some 50) "hello"
    (fun _ h => nomatch h) (fun _ h => nomatch h)

/-- C8: on non-blank input, the abruptness issue (and its -25 penalty branch)
fires exactly when the word count is strictly below 10 and none of please,
could, would occurs in the lowercased text; an input of exactly 10 words
never triggers it. -/
theorem abrupt_penalty_boundary (ro : String → Option ℚ) (text : String)
    (hne : is_blank text = false) :
    ("Message too short and abrupt." ∈ (analyze_clarity ro text).issues ↔
      ((pySplitWs text).length < 10 ∧
       ∀ v ∈ (["please", "could", "would"] : List String),
         py_in v (pyLower text) = false)) ∧
    ((pySplitWs text).length = 10 →
      "Message too short and abrupt." ∉ (analyze_clarity ro text).issues) := by
  have hiff := (abrupt_issue_mem ro text hne).trans (abrupt_short_iff text)
  refine ⟨hiff, fun h10 hmem => ?_⟩
  have := hiff.mp hmem
  omega

/-- Witness for C8: the characterization at a nine-word abrupt text, and the
absence of the issue at the same text padded to exactly ten words. -/
theorem abrupt_penalty_boundary_witness :
    ("Message too short and abrupt." ∈
      (analyze_clarity (fun _ => some 50) "one two three four five six seven eight nine").issues ↔
      ((pySplitWs "one two three four five six seven eight nine").length < 10 ∧
       ∀ v ∈ (["please", "could", "would"] : List String),
         py_in v (pyLower "one two three four five six seven eight nine") = false)) ∧
    "Message too short and abrupt." ∉
      (analyze_clarity (fun _ => some 50) "one two three four five six seven eight nine ten").issues :=
  ⟨(abrupt_penalty_boundary (fun _ => some 50)
      "one two three four five six seven eight nine" (by decide)).1,
   (abrupt_penalty_boundary (fun _ => some 50)
      "one two three four five six seven eight nine ten" (by decide)).2 (by decide)⟩

end Sentiscope
